import Mathlib

/-
  A shallow embedding of the matching engine of the lovebot repository
  (src/bot.py, src/botnew.py): the profile store, the interaction ledger
  (likes / viewed profiles), the match resolver, the candidate selector,
  and the age-change guard.  Stateful sqlite/Postgres tables become lists
  held in an explicit state record; every operation is a pure function on
  that state.  Timestamps are integers (seconds); the geodesic distance of
  geopy is kept abstract as an integer-valued function parameter, since no
  verified property depends on the actual metric.
-/

namespace LoveBot

/-- A row of the `users` table (bot.py `init_database`).  `latitude` and
`longitude` are nullable REAL columns; they are embedded as `Option Int`,
the metric being abstracted.  `bio` and `photo_id` are nullable TEXT. -/
structure Profile where
  user_id : Int
  username : Option String
  name : String
  age : Int
  gender : String
  city : String
  latitude : Option Int
  longitude : Option Int
  looking_for : String
  min_age : Int
  max_age : Int
  bio : Option String
  photo_id : Option String
  is_active : Bool
deriving DecidableEq, Repr

/-- A row of the `age_changes` table: `(user_id, old_age, new_age, changed_at)`. -/
structure AgeChange where
  user_id : Int
  old_age : Int
  new_age : Int
  changed_at : Int
deriving DecidableEq, Repr

/-- The full database state: the five tables of bot.py `init_database`.
`likes`, `matches` and `viewed_profiles` are lists of ordered pairs of
user ids; uniqueness constraints are realised by the insert operations. -/
@[ext]
structure DB where
  users : List Profile
  likes : List (Int × Int)
  match_rows : List (Int × Int)
  viewed_profiles : List (Int × Int)
  age_changes : List AgeChange
deriving DecidableEq, Repr

/-- The empty database (fresh `init_database`). -/
def DB.empty : DB := ⟨[], [], [], [], []⟩

/-- `INSERT OR IGNORE` into a table with a UNIQUE constraint on the whole
pair: a no-op when the row is already present, an append otherwise. -/
def insertUnique (l : List (Int × Int)) (x : Int × Int) : List (Int × Int) :=
  if x ∈ l then l else l ++ [x]

/-- `DatabaseManager.user_exists`: `SELECT 1 FROM users WHERE user_id = ?`. -/
def user_exists (db : DB) (uid : Int) : Bool :=
  db.users.any (fun u => u.user_id == uid)

/-- `DatabaseManager.get_user`: `SELECT * FROM users WHERE user_id = ?`. -/
def get_user (db : DB) (uid : Int) : Option Profile :=
  db.users.find? (fun u => u.user_id == uid)

/-- Outcome of a registration attempt. -/
inductive RegResult
  | ok
  | conflict
deriving DecidableEq, Repr

/-- `DatabaseManager.create_user`: a plain `INSERT INTO users`; the PRIMARY
KEY constraint on `user_id` rejects a duplicate id, aborting the statement
with nothing written (the IntegrityError surfaces to the caller).  The
`is_active` column is not in the INSERT's column list, so its DEFAULT 1
applies. -/
def create_user (db : DB) (p : Profile) : DB × RegResult :=
  if user_exists db p.user_id then (db, RegResult.conflict)
  else ({ db with users := db.users ++ [{ p with is_active := true }] }, RegResult.ok)

/-- `DatabaseManager.add_like`: `INSERT OR IGNORE` the like edge
`(from_user, to_user)`, then check the reciprocal edge `(to_user,
from_user)` in the updated table; on reciprocity, `INSERT OR IGNORE` the
canonical match row `(min, max)`.  Returns the updated state and the
`is_match` flag. -/
def add_like (db : DB) (from_user to_user : Int) : DB × Bool :=
  let likes' := insertUnique db.likes (from_user, to_user)
  let is_match : Bool := decide ((to_user, from_user) ∈ likes')
  let matches' :=
    if is_match then insertUnique db.match_rows (min from_user to_user, max from_user to_user)
    else db.match_rows
  ({ db with likes := likes', match_rows := matches' }, is_match)

/-- `DatabaseManager.mark_as_viewed`: `INSERT OR IGNORE INTO viewed_profiles`. -/
def mark_as_viewed (db : DB) (viewer_user viewed_user : Int) : DB :=
  { db with viewed_profiles := insertUnique db.viewed_profiles (viewer_user, viewed_user) }

/-- botnew.py `set_active`: `UPDATE users SET is_active=%s WHERE user_id=%s`. -/
def set_active (db : DB) (uid : Int) (active : Bool) : DB :=
  { db with users := db.users.map (fun u =>
      if u.user_id == uid then { u with is_active := active } else u) }

/-- A single-field mutation payload for `DatabaseManager.update_user_field`
(the fields the edit handlers actually pass: name, age, gender, bio,
photo_id). -/
inductive FieldVal
  | name (s : String)
  | age (n : Int)
  | gender (s : String)
  | bio (s : Option String)
  | photo_id (s : Option String)
deriving DecidableEq, Repr

/-- Apply a single-field mutation to one row (`UPDATE users SET {field} = ?`). -/
def applyField (fv : FieldVal) (u : Profile) : Profile :=
  match fv with
  | FieldVal.name s => { u with name := s }
  | FieldVal.age n => { u with age := n }
  | FieldVal.gender s => { u with gender := s }
  | FieldVal.bio s => { u with bio := s }
  | FieldVal.photo_id s => { u with photo_id := s }

/-- `DatabaseManager.update_user_field`: for `field = 'age'` it first reads
the old age (a missing row aborts the transaction before any write, so the
state is unchanged) and appends an `age_changes` row in the same
transaction as the UPDATE; for the other fields it is a bare UPDATE. -/
def update_user_field (db : DB) (uid : Int) (fv : FieldVal) (now : Int) : DB :=
  match fv with
  | FieldVal.age n =>
    match get_user db uid with
    | none => db
    | some u =>
      { db with
        users := db.users.map (fun v =>
          if v.user_id == uid then applyField (FieldVal.age n) v else v),
        age_changes := db.age_changes ++ [⟨uid, u.age, n, now⟩] }
  | _ =>
    { db with users := db.users.map (fun v =>
        if v.user_id == uid then applyField fv v else v) }

/-- The rows of `age_changes` belonging to one user. -/
def userChanges (db : DB) (uid : Int) : List AgeChange :=
  db.age_changes.filter (fun r => r.user_id == uid)

/-- `SELECT changed_at FROM age_changes WHERE user_id = ? ORDER BY
changed_at DESC LIMIT 1`: the greatest timestamp among the user's
records, none when there are no records. -/
def lastChangeTime (db : DB) (uid : Int) : Option Int :=
  match userChanges db uid with
  | [] => none
  | r :: rs => some (rs.foldl (fun t s => max t s.changed_at) r.changed_at)

/-- `SELECT COUNT(*) FROM age_changes WHERE user_id = ? AND changed_at >
datetime('now', '-30 days')`: 30 days are 2592000 seconds. -/
def monthlyCount (db : DB) (uid : Int) (now : Int) : Nat :=
  ((userChanges db uid).filter (fun r => now - 2592000 < r.changed_at)).length

/-- Denial message of the 24-hour rule (bot.py `can_change_age`). -/
def tooFrequentMsg : String := "Возраст можно менять не чаще раз в 24 часа"

/-- Denial message of the monthly-limit rule (bot.py `can_change_age`). -/
def monthlyLimitMsg : String := "Возраст можно менять не более 3 раз в месяц"

/-- `DatabaseManager.can_change_age`: deny with the too-frequent reason when
the most recent record is under 24 hours (86400 seconds) old; otherwise
deny with the monthly-limit reason when the trailing-30-days count is at
least 3; otherwise allow. -/
def can_change_age (db : DB) (uid : Int) (now : Int) : Bool × String :=
  match lastChangeTime db uid with
  | some t =>
    if now - t < 86400 then (false, tooFrequentMsg)
    else if 3 ≤ monthlyCount db uid now then (false, monthlyLimitMsg)
    else (true, "")
  | none =>
    if 3 ≤ monthlyCount db uid now then (false, monthlyLimitMsg)
    else (true, "")

/-- Python truthiness of a nullable numeric column: `None` and `0` are
falsy (`if user['latitude'] and user['longitude'] and ...`). -/
def truthy : Option Int → Bool
  | none => false
  | some v => v != 0

/-- The WHERE clause of `DatabaseManager.get_potential_matches`:
`u.user_id != ? AND u.is_active = 1 AND u.gender = ? AND u.age BETWEEN ?
AND ?` plus the `NOT IN` exclusions against `likes` and
`viewed_profiles` for the requesting user. -/
def eligPred (req : Profile) (uid : Int) (db : DB) (u : Profile) : Bool :=
  decide (u.user_id ≠ uid) && u.is_active &&
  decide (u.gender = req.looking_for) &&
  decide (req.min_age ≤ u.age) && decide (u.age ≤ req.max_age) &&
  decide ((uid, u.user_id) ∉ db.likes) &&
  decide ((uid, u.user_id) ∉ db.viewed_profiles)

/-- The rows produced by the SELECT of `get_potential_matches` before the
`ORDER BY RANDOM() LIMIT 1` and the distance post-filter. -/
def eligibleFor (db : DB) (uid : Int) (req : Profile) : List Profile :=
  db.users.filter (eligPred req uid db)

/-- The eligible set of a requester: empty when the requester has no
stored profile. -/
def eligibleSet (db : DB) (uid : Int) : List Profile :=
  match get_user db uid with
  | none => []
  | some req => eligibleFor db uid req

/-- `DatabaseManager.get_potential_matches`: load the requester (absent
requester yields `[]`), take one row of the eligible set chosen by the
`ORDER BY RANDOM() LIMIT 1` (embedded as the index `pick % length`), then
post-filter: the row is kept only when the requester and the candidate
both have truthy coordinates and their geodesic distance is at most 100
kilometres; there is no branch for missing coordinates, so such a row is
dropped.  `dist` abstracts `geopy.distance.geodesic(...).kilometers`. -/
def get_potential_matches (dist : Int → Int → Int → Int → Int) (db : DB)
    (uid : Int) (pick : Nat) : List Profile :=
  match get_user db uid with
  | none => []
  | some req =>
    match (eligibleFor db uid req).get? (pick % (eligibleFor db uid req).length) with
    | none => []
    | some c =>
      if truthy req.latitude && truthy req.longitude &&
          truthy c.latitude && truthy c.longitude then
        if dist (req.latitude.getD 0) (req.longitude.getD 0)
            (c.latitude.getD 0) (c.longitude.getD 0) ≤ 100 then [c]
        else []
      else []

/-- The repository's state-changing operations, for reasoning about
arbitrary further interaction sequences. -/
inductive Op
  | create (p : Profile)
  | like (from_user to_user : Int)
  | view (viewer viewed : Int)
  | update (uid : Int) (fv : FieldVal) (now : Int)
  | setActive (uid : Int) (active : Bool)

/-- One operation applied to the state (outputs discarded). -/
def step (db : DB) : Op → DB
  | Op.create p => (create_user db p).1
  | Op.like f t => (add_like db f t).1
  | Op.view f t => mark_as_viewed db f t
  | Op.update uid fv now => update_user_field db uid fv now
  | Op.setActive uid b => set_active db uid b

/-- A sequence of operations applied in order. -/
def run (db : DB) (ops : List Op) : DB :=
  ops.foldl step db

/-- A row of botnew.py's `users` table: every non-key column is nullable
there, and `upsert_user` fills absent dict keys with `None`. -/
structure ProfileN where
  user_id : Int
  username : Option String := none
  name : Option String := none
  age : Option Int := none
  gender : Option String := none
  city : Option String := none
  latitude : Option Int := none
  longitude : Option Int := none
  looking_for : Option String := none
  min_age : Option Int := none
  max_age : Option Int := none
  bio : Option String := none
  photo_id : Option String := none
  is_active : Option Bool := none
deriving DecidableEq, Repr

/-- The part of botnew.py's state that its age-edit path touches. -/
structure DBN where
  users : List ProfileN
  age_changes : List AgeChange
deriving DecidableEq, Repr

/-- botnew.py `upsert_user`: `INSERT ... ON CONFLICT (user_id) DO UPDATE
SET` every column to the excluded value, with `COALESCE(%s, TRUE)` for
`is_active`; the stored row therefore always equals the supplied data
(missing dict keys become NULL). -/
def upsert_user (db : DBN) (data : ProfileN) : DBN :=
  let row := { data with is_active := some (data.is_active.getD true) }
  if db.users.any (fun u => u.user_id == data.user_id) then
    { db with users := db.users.map (fun u =>
        if u.user_id == data.user_id then row else u) }
  else
    { db with users := db.users ++ [row] }

/-- botnew.py `get_user`. -/
def get_userN (db : DBN) (uid : Int) : Option ProfileN :=
  db.users.find? (fun u => u.user_id == uid)

/-- botnew.py `edit_age`: validate 18–100, then call
`upsert_user({"user_id": ..., "age": ...})` — no age-change guard is
consulted and no `age_changes` row is written. -/
def edit_age (db : DBN) (uid : Int) (n : Int) : DBN :=
  if 18 ≤ n ∧ n ≤ 100 then upsert_user db { user_id := uid, age := some n }
  else db

/-- A trivial stand-in for the abstract geodesic distance, used in
concrete evaluations. -/
def dist0 : Int → Int → Int → Int → Int := fun _ _ _ _ => 0

/-- Concrete requester without coordinates (the geocoder failed at
registration, a case the front end explicitly degrades to). -/
def reqNoCoord : Profile :=
  ⟨1, some "alice", "Alice", 30, "female", "Moscow", none, none,
   "male", 20, 35, some "hi", some "ph1", true⟩

/-- Concrete eligible candidate with coordinates. -/
def candCoord : Profile :=
  ⟨2, some "bob", "Bob", 25, "male", "Moscow", some 10, some 10,
   "female", 20, 40, some "yo", some "ph2", true⟩

/-- State for the C5 counterexample: the requester lacks coordinates and
one candidate is eligible. -/
def dbC5 : DB := ⟨[reqNoCoord, candCoord], [], [], [], []⟩

/-- Concrete requester with coordinates. -/
def reqCoord : Profile :=
  ⟨1, some "alice", "Alice", 30, "female", "Moscow", some 11, some 11,
   "male", 20, 35, some "hi", some "ph1", true⟩

/-- State for the C4 witness: requester and a single eligible candidate,
both with coordinates. -/
def dbW4 : DB := ⟨[reqCoord, candCoord], [], [], [], []⟩

/-- State for the C3 witness: the requester has already liked user 3; an
unrelated eligible candidate remains. -/
def dbW3 : DB := ⟨[reqCoord, candCoord], [(1, 3)], [], [], []⟩

/-- State for the C6 counterexample and witness at `now = 10000000`:
three age changes for user 1 inside the trailing 30 days, the most
recent under 24 hours old. -/
def dbC6 : DB :=
  ⟨[], [], [], [],
   [⟨1, 30, 31, 9999900⟩, ⟨1, 31, 32, 9999800⟩, ⟨1, 32, 33, 9999700⟩]⟩

/-- State for the C6 witness at `now = 10000000`: three age changes for
user 1 inside the trailing 30 days, the most recent over 24 hours old. -/
def dbW6 : DB :=
  ⟨[], [], [], [],
   [⟨1, 30, 31, 9900000⟩, ⟨1, 31, 32, 9800000⟩, ⟨1, 32, 33, 9700000⟩]⟩

/-- State with one registered profile, for the C8 witness. -/
def dbW8 : DB := ⟨[reqCoord], [], [], [], []⟩

/-- A registration payload re-using an already registered `user_id`. -/
def pW8 : Profile :=
  ⟨1, none, "Mallory", 22, "female", "Kazan", none, none,
   "male", 18, 30, none, none, true⟩

/-- A fresh registration payload for the C9 witness. -/
def pW9 : Profile :=
  ⟨7, some "carol", "Carol", 28, "female", "Tver", some 3, some 4,
   "male", 21, 33, some "bio", some "ph7", true⟩

/-- botnew.py state for C7: one registered user of age 30, empty
age-change ledger. -/
def db7 : DBN :=
  ⟨[{ user_id := 1, name := some "Dana", age := some 30, is_active := some true }], []⟩

/-- Membership after an idempotent insert. -/
theorem mem_insertUnique {l : List (Int × Int)} {x y : Int × Int} :
    y ∈ insertUnique l x ↔ y ∈ l ∨ y = x := by
  unfold insertUnique
  by_cases h : x ∈ l
  · rw [if_pos h]
    exact ⟨Or.inl, fun hy => hy.elim id (fun e => e ▸ h)⟩
  · rw [if_neg h, List.mem_append, List.mem_singleton]

/-- An idempotent insert of a present row is a no-op. -/
theorem insertUnique_of_mem {l : List (Int × Int)} {x : Int × Int} (h : x ∈ l) :
    insertUnique l x = l := by
  unfold insertUnique
  exact if_pos h

/-- An idempotent insert of an absent row appends it. -/
theorem insertUnique_of_not_mem {l : List (Int × Int)} {x : Int × Int} (h : x ∉ l) :
    insertUnique l x = l ++ [x] := by
  unfold insertUnique
  exact if_neg h

/-- The inserted row occurs in the result. -/
theorem self_mem_insertUnique (l : List (Int × Int)) (x : Int × Int) :
    x ∈ insertUnique l x :=
  mem_insertUnique.mpr (Or.inr rfl)

/-- The idempotent insert never produces a duplicate of the inserted row. -/
theorem count_insertUnique_le_one {l : List (Int × Int)} {x : Int × Int}
    (h : l.count x ≤ 1) : (insertUnique l x).count x ≤ 1 := by
  by_cases hx : x ∈ l
  · rw [insertUnique_of_mem hx]; exact h
  · rw [insertUnique_of_not_mem hx, List.count_append, List.count_eq_zero.mpr hx]
    simp

/-- No repository operation ever removes a like edge. -/
theorem likes_step_mono (db : DB) (op : Op) {e : Int × Int} (h : e ∈ db.likes) :
    e ∈ (step db op).likes := by
  cases op with
  | create p =>
    simp only [step, create_user]
    split <;> exact h
  | like f t =>
    simp only [step, add_like]
    exact mem_insertUnique.mpr (Or.inl h)
  | view f t => exact h
  | update uid fv now =>
    cases fv with
    | age n =>
      simp only [step, update_user_field]
      split <;> exact h
    | name s => exact h
    | gender s => exact h
    | bio s => exact h
    | photo_id s => exact h
  | setActive uid b => exact h

/-- No repository operation ever removes a viewed-profile edge. -/
theorem viewed_step_mono (db : DB) (op : Op) {e : Int × Int}
    (h : e ∈ db.viewed_profiles) : e ∈ (step db op).viewed_profiles := by
  cases op with
  | create p =>
    simp only [step, create_user]
    split <;> exact h
  | like f t => exact h
  | view f t =>
    simp only [step, mark_as_viewed]
    exact mem_insertUnique.mpr (Or.inl h)
  | update uid fv now =>
    cases fv with
    | age n =>
      simp only [step, update_user_field]
      split <;> exact h
    | name s => exact h
    | gender s => exact h
    | bio s => exact h
    | photo_id s => exact h
  | setActive uid b => exact h

/-- Like edges persist across any sequence of operations. -/
theorem likes_run_mono (db : DB) (ops : List Op) {e : Int × Int}
    (h : e ∈ db.likes) : e ∈ (run db ops).likes := by
  induction ops generalizing db with
  | nil => exact h
  | cons op rest ih => exact ih (step db op) (likes_step_mono db op h)

/-- Viewed-profile edges persist across any sequence of operations. -/
theorem viewed_run_mono (db : DB) (ops : List Op) {e : Int × Int}
    (h : e ∈ db.viewed_profiles) : e ∈ (run db ops).viewed_profiles := by
  induction ops generalizing db with
  | nil => exact h
  | cons op rest ih => exact ih (step db op) (viewed_step_mono db op h)

/-- Unfolding of the eligibility predicate into its conjuncts. -/
theorem eligPred_eq_true_iff {req : Profile} {uid : Int} {db : DB} {u : Profile} :
    eligPred req uid db u = true ↔
      u.user_id ≠ uid ∧ u.is_active = true ∧ u.gender = req.looking_for ∧
      req.min_age ≤ u.age ∧ u.age ≤ req.max_age ∧
      (uid, u.user_id) ∉ db.likes ∧ (uid, u.user_id) ∉ db.viewed_profiles := by
  simp [eligPred, and_assoc]

/-- Inversion for the candidate selector: a returned profile was produced
from an existing requester, lies in the SQL-eligible set, and passed the
coordinate/distance post-filter. -/
theorem mem_get_potential_matches {dist : Int → Int → Int → Int → Int} {db : DB}
    {uid : Int} {pick : Nat} {p : Profile}
    (h : p ∈ get_potential_matches dist db uid pick) :
    ∃ req, get_user db uid = some req ∧ p ∈ db.users ∧
      eligPred req uid db p = true ∧
      truthy req.latitude = true ∧ truthy req.longitude = true ∧
      truthy p.latitude = true ∧ truthy p.longitude = true ∧
      dist (req.latitude.getD 0) (req.longitude.getD 0)
        (p.latitude.getD 0) (p.longitude.getD 0) ≤ 100 := by
  unfold get_potential_matches at h
  split at h
  · simp at h
  · rename_i req hreq
    split at h
    · simp at h
    · rename_i c hc
      split at h
      · rename_i htr
        split at h
        · rename_i hdist
          rw [List.mem_singleton] at h
          subst h
          have hmem : p ∈ eligibleFor db uid req := List.get?_mem hc
          rw [eligibleFor, List.mem_filter] at hmem
          simp only [Bool.and_eq_true] at htr
          exact ⟨req, hreq, hmem.1, hmem.2, htr.1.1.1, htr.1.1.2, htr.1.2, htr.2, hdist⟩
        · simp at h
      · simp at h

/-- An element of the eligible set, unfolded through an existing requester. -/
theorem mem_eligibleSet_iff {db : DB} {uid : Int} {req p : Profile}
    (hreq : get_user db uid = some req) :
    p ∈ eligibleSet db uid ↔ p ∈ db.users ∧ eligPred req uid db p = true := by
  unfold eligibleSet
  rw [hreq]
  exact List.mem_filter

/-- Claim C4: for every requester with a stored profile, any profile
returned by the candidate selector is active, has an age within the
requester's configured range, and is not the requester's own profile. -/
theorem c4_candidate_respects_filters (db : DB) (uid : Int)
    (dist : Int → Int → Int → Int → Int) (pick : Nat) (p : Profile)
    (hp : p ∈ get_potential_matches dist db uid pick) :
    ∃ req, get_user db uid = some req ∧ p.is_active = true ∧
      req.min_age ≤ p.age ∧ p.age ≤ req.max_age ∧ p.user_id ≠ uid := by
  obtain ⟨req, hreq, _, helig, _⟩ := mem_get_potential_matches hp
  obtain ⟨h1, h2, _, h4, h5, _, _⟩ := eligPred_eq_true_iff.mp helig
  exact ⟨req, hreq, h2, h4, h5, h1⟩

/-- Witness for C4 at a concrete state where a candidate is returned. -/
theorem c4_candidate_respects_filters_witness :
    candCoord ∈ get_potential_matches dist0 dbW4 1 0 ∧
    ∃ req, get_user dbW4 1 = some req ∧ candCoord.is_active = true ∧
      req.min_age ≤ candCoord.age ∧ candCoord.age ≤ req.max_age ∧
      candCoord.user_id ≠ 1 :=
  ⟨by decide, c4_candidate_respects_filters dbW4 1 dist0 0 candCoord (by decide)⟩

/-- Claim C3: once a like or viewed edge from `a` to `b` is recorded, no
candidate-selector call for `a` after any further sequence of repository
operations ever returns `b`'s profile. -/
theorem c3_exclusion_is_permanent (db : DB) (a b : Int) (ops : List Op)
    (h : (a, b) ∈ db.likes ∨ (a, b) ∈ db.viewed_profiles)
    (dist : Int → Int → Int → Int → Int) (pick : Nat) (p : Profile)
    (hp : p ∈ get_potential_matches dist (run db ops) a pick) :
    p.user_id ≠ b := by
  obtain ⟨req, _, _, helig, _⟩ := mem_get_potential_matches hp
  obtain ⟨_, _, _, _, _, hnl, hnv⟩ := eligPred_eq_true_iff.mp helig
  intro heq
  subst heq
  cases h with
  | inl hl => exact hnl (likes_run_mono db ops hl)
  | inr hv => exact hnv (viewed_run_mono db ops hv)

/-- Witness for C3 at a concrete state: user 1 has liked user 3, and the
profile returned afterwards is not user 3's. -/
theorem c3_exclusion_is_permanent_witness :
    ((1, 3) ∈ dbW3.likes ∨ (1, 3) ∈ dbW3.viewed_profiles) ∧
    candCoord ∈ get_potential_matches dist0 (run dbW3 []) 1 0 ∧
    candCoord.user_id ≠ 3 :=
  ⟨Or.inl (by decide), by decide,
   c3_exclusion_is_permanent dbW3 1 3 [] (Or.inl (by decide)) dist0 0 candCoord
     (by decide)⟩

/-- Claim C10: liking oneself immediately reports a match and records a
match row `(a, a)`: the reciprocity query runs after the insert of the
like edge, and the edge `(a, a)` is its own reciprocal. -/
theorem c10_self_like_matches (db : DB) (a : Int) :
    (add_like db a a).2 = true ∧ (a, a) ∈ (add_like db a a).1.match_rows := by
  constructor
  · simp only [add_like]
    rw [decide_eq_true_eq]
    exact self_mem_insertUnique db.likes (a, a)
  · have hm : ((a, a) ∈ insertUnique db.likes (a, a)) := self_mem_insertUnique _ _
    simp only [add_like, decide_eq_true_eq, hm, if_pos, min_self, max_self]
    simpa using self_mem_insertUnique db.match_rows (a, a)

/-- Claim C8: registering an already present `user_id` reports a conflict
and leaves the state (in particular the stored profile) unchanged. -/
theorem c8_duplicate_registration_conflict (db : DB) (p : Profile)
    (h : user_exists db p.user_id = true) :
    create_user db p = (db, RegResult.conflict) := by
  unfold create_user
  rw [if_pos h]

/-- Witness for C8 at a concrete state with user 1 already registered. -/
theorem c8_duplicate_registration_conflict_witness :
    user_exists dbW8 pW8.user_id = true ∧
    create_user dbW8 pW8 = (dbW8, RegResult.conflict) :=
  ⟨by decide, c8_duplicate_registration_conflict dbW8 pW8 (by decide)⟩

/-- Registering a fresh `user_id` finds the new row again: the appended
row is the first (only) row with that id. -/
theorem find_append_self (l : List Profile) (q : Profile)
    (h : l.any (fun u => u.user_id == q.user_id) = false) :
    (l ++ [q]).find? (fun u => u.user_id == q.user_id) = some q := by
  induction l with
  | nil => simp [List.find?]
  | cons a rest ih =>
    rw [List.any_cons, Bool.or_eq_false_iff] at h
    rw [List.cons_append, List.find?_cons, h.1]
    exact ih h.2

/-- Claim C9: registering a valid, fresh profile succeeds, and reading it
back returns a profile with all supplied fields (the `is_active` column
takes its schema default `1`). -/
theorem c9_register_then_get (db : DB) (p : Profile)
    (h : user_exists db p.user_id = false) :
    (create_user db p).2 = RegResult.ok ∧
    get_user (create_user db p).1 p.user_id = some { p with is_active := true } := by
  unfold create_user
  rw [h]
  refine ⟨rfl, ?_⟩
  show (db.users ++ [{ p with is_active := true }]).find?
      (fun u => u.user_id == p.user_id) = some { p with is_active := true }
  exact find_append_self db.users { p with is_active := true } h

/-- Witness for C9 with a concrete fresh profile on the empty state. -/
theorem c9_register_then_get_witness :
    user_exists DB.empty pW9.user_id = false ∧
    ((create_user DB.empty pW9).2 = RegResult.ok ∧
     get_user (create_user DB.empty pW9).1 pW9.user_id =
       some { pW9 with is_active := true }) :=
  ⟨by decide, c9_register_then_get DB.empty pW9 (by decide)⟩

/-- Claim C1: for distinct users with no prior likes or match between
them, `like(a,b)` then `like(b,a)` reports no match on the first call and
a match on the second, and afterwards exactly one match row exists for
the pair, stored canonically as `(min(a,b), max(a,b))`; by instantiating
`a` and `b` the other way round, either order behaves the same. -/
theorem c1_mutual_like (db : DB) (a b : Int) (hab : a ≠ b)
    (_h1 : (a, b) ∉ db.likes) (h2 : (b, a) ∉ db.likes)
    (h3 : (min a b, max a b) ∉ db.match_rows)
    (h4 : (max a b, min a b) ∉ db.match_rows) :
    (add_like db a b).2 = false ∧
    (add_like (add_like db a b).1 b a).2 = true ∧
    (add_like (add_like db a b).1 b a).1.match_rows.count (min a b, max a b) = 1 ∧
    (max a b, min a b) ∉ (add_like (add_like db a b).1 b a).1.match_rows := by
  have hba : (b, a) ∉ insertUnique db.likes (a, b) := by
    rw [mem_insertUnique]
    rintro (hc | hc)
    · exact h2 hc
    · rw [Prod.mk.injEq] at hc
      exact hab hc.2
  have e1 : add_like db a b =
      ({ db with likes := insertUnique db.likes (a, b) }, false) := by
    simp only [add_like]
    rw [decide_eq_false hba]
    simp
  have hab2 : (a, b) ∈ insertUnique (insertUnique db.likes (a, b)) (b, a) :=
    mem_insertUnique.mpr (Or.inl (self_mem_insertUnique _ _))
  have e2 : add_like { db with likes := insertUnique db.likes (a, b) } b a =
      ({ db with likes := insertUnique (insertUnique db.likes (a, b)) (b, a),
                 match_rows := insertUnique db.match_rows (min b a, max b a) },
       true) := by
    simp only [add_like]
    rw [decide_eq_true hab2]
    simp
  rw [e1]
  dsimp only
  rw [e2]
  dsimp only
  refine ⟨rfl, rfl, ?_, ?_⟩
  · rw [min_comm b a, max_comm b a, insertUnique_of_not_mem h3, List.count_append,
      List.count_eq_zero.mpr h3]
    simp
  · rw [min_comm b a, max_comm b a, insertUnique_of_not_mem h3, List.mem_append]
    rintro (hc | hc)
    · exact h4 hc
    · rw [List.mem_singleton, Prod.mk.injEq] at hc
      exact (min_lt_max.mpr hab).ne' hc.1

/-- Witness for C1 with two fresh users on the empty state. -/
theorem c1_mutual_like_witness :
    ((1 : Int) ≠ 2 ∧ ((1 : Int), (2 : Int)) ∉ DB.empty.likes ∧
     ((2 : Int), (1 : Int)) ∉ DB.empty.likes ∧
     (min (1 : Int) 2, max (1 : Int) 2) ∉ DB.empty.match_rows ∧
     (max (1 : Int) 2, min (1 : Int) 2) ∉ DB.empty.match_rows) ∧
    ((add_like DB.empty 1 2).2 = false ∧
     (add_like (add_like DB.empty 1 2).1 2 1).2 = true ∧
     (add_like (add_like DB.empty 1 2).1 2 1).1.match_rows.count
       (min (1 : Int) 2, max (1 : Int) 2) = 1 ∧
     (max (1 : Int) 2, min (1 : Int) 2) ∉
       (add_like (add_like DB.empty 1 2).1 2 1).1.match_rows) :=
  ⟨⟨by decide, by decide, by decide, by decide, by decide⟩,
   c1_mutual_like DB.empty 1 2 (by decide) (by decide) (by decide) (by decide)
     (by decide)⟩

/-- Claim C2: repeating `like(a,b)` is idempotent — the second call
returns the same state and the same flag, and the likes and matches
tables keep at most one row for the ordered pair and the canonical
unordered pair respectively. -/
theorem c2_like_idempotent (db : DB) (a b : Int)
    (hL : db.likes.count (a, b) ≤ 1)
    (hM : db.match_rows.count (min a b, max a b) ≤ 1) :
    add_like (add_like db a b).1 a b = add_like db a b ∧
    (add_like db a b).1.likes.count (a, b) ≤ 1 ∧
    (add_like db a b).1.match_rows.count (min a b, max a b) ≤ 1 := by
  have hL1 : insertUnique (insertUnique db.likes (a, b)) (a, b) =
      insertUnique db.likes (a, b) :=
    insertUnique_of_mem (self_mem_insertUnique db.likes (a, b))
  by_cases hm : (b, a) ∈ insertUnique db.likes (a, b)
  · have hM1 : insertUnique (insertUnique db.match_rows (min a b, max a b))
        (min a b, max a b) = insertUnique db.match_rows (min a b, max a b) :=
      insertUnique_of_mem (self_mem_insertUnique db.match_rows (min a b, max a b))
    refine ⟨?_, ?_, ?_⟩
    · simp [add_like, hL1, hm, hM1]
    · simp only [add_like]
      exact count_insertUnique_le_one hL
    · simp [add_like, hm]
      exact count_insertUnique_le_one hM
  · refine ⟨?_, ?_, ?_⟩
    · simp [add_like, hL1, hm]
    · simp only [add_like]
      exact count_insertUnique_le_one hL
    · simp [add_like, hm]
      exact hM

/-- Witness for C2 with two users on the empty state. -/
theorem c2_like_idempotent_witness :
    (DB.empty.likes.count ((1 : Int), (2 : Int)) ≤ 1 ∧
     DB.empty.match_rows.count (min (1 : Int) 2, max (1 : Int) 2) ≤ 1) ∧
    (add_like (add_like DB.empty 1 2).1 1 2 = add_like DB.empty 1 2 ∧
     (add_like DB.empty 1 2).1.likes.count ((1 : Int), (2 : Int)) ≤ 1 ∧
     (add_like DB.empty 1 2).1.match_rows.count
       (min (1 : Int) 2, max (1 : Int) 2) ≤ 1) :=
  ⟨⟨by decide, by decide⟩, c2_like_idempotent DB.empty 1 2 (by decide) (by decide)⟩

/-- Counterexample to C6: with three age changes inside the trailing 30
days and the most recent one under 24 hours old, the guard denies, but
with the too-frequent reason, not the monthly-limit reason that the
claim requires regardless of the 24-hour spacing. -/
theorem c6_counterexample :
    3 ≤ monthlyCount dbC6 1 10000000 ∧
    (can_change_age dbC6 1 10000000).1 = false ∧
    (can_change_age dbC6 1 10000000).2 ≠ monthlyLimitMsg := by decide

/-- Claim C6 as amended: with three age changes inside the trailing 30
days, the next `can_change_age` call denies in every case; the reason is
the monthly-limit one exactly when the most recent change is at least 24
hours old, and the too-frequent one otherwise. -/
theorem c6_monthly_limit_denies (db : DB) (uid now : Int)
    (h : 3 ≤ monthlyCount db uid now) :
    (can_change_age db uid now).1 = false ∧
    (can_change_age db uid now).2 =
      (match lastChangeTime db uid with
       | some t => if now - t < 86400 then tooFrequentMsg else monthlyLimitMsg
       | none => monthlyLimitMsg) := by
  unfold can_change_age
  cases e : lastChangeTime db uid with
  | none =>
    exfalso
    have hempty : userChanges db uid = [] := by
      unfold lastChangeTime at e
      cases h' : userChanges db uid with
      | nil => rfl
      | cons r rs => rw [h'] at e; simp at e
    unfold monthlyCount at h
    rw [hempty] at h
    simp at h
  | some t =>
    by_cases h24 : now - t < 86400
    · simp [h24]
    · simp [h24, h]

/-- Witness for the amended C6: three month-window changes, the most
recent over 24 hours old, denied with the monthly-limit reason. -/
theorem c6_monthly_limit_denies_witness :
    3 ≤ monthlyCount dbW6 1 10000000 ∧
    ((can_change_age dbW6 1 10000000).1 = false ∧
     (can_change_age dbW6 1 10000000).2 =
       (match lastChangeTime dbW6 1 with
        | some t => if (10000000 : Int) - t < 86400 then tooFrequentMsg
                    else monthlyLimitMsg
        | none => monthlyLimitMsg)) :=
  ⟨by decide, c6_monthly_limit_denies dbW6 1 10000000 (by decide)⟩

/-- Counterexample to C5: the requester has no coordinates, the eligible
set is non-empty, yet the selector returns nothing — the distance cutoff
is not merely an additional filter for the both-have-coordinates case;
missing coordinates drop the picked candidate outright. -/
theorem c5_counterexample :
    eligibleSet dbC5 1 ≠ [] ∧ get_potential_matches dist0 dbC5 1 0 = [] := by
  decide

/-- Claim C5 as amended: the selector returns nothing when the eligible
set is empty, and anything it returns is an eligible profile such that
both the requester and the candidate have truthy coordinates with
distance at most 100 — but a non-empty eligible set does not guarantee a
result. -/
theorem c5_selector_sound (db : DB) (uid : Int)
    (dist : Int → Int → Int → Int → Int) (pick : Nat) :
    (eligibleSet db uid = [] → get_potential_matches dist db uid pick = []) ∧
    (∀ p ∈ get_potential_matches dist db uid pick,
      p ∈ eligibleSet db uid ∧
      ∃ req, get_user db uid = some req ∧
        truthy req.latitude = true ∧ truthy req.longitude = true ∧
        truthy p.latitude = true ∧ truthy p.longitude = true ∧
        dist (req.latitude.getD 0) (req.longitude.getD 0)
          (p.latitude.getD 0) (p.longitude.getD 0) ≤ 100) := by
  constructor
  · intro hempty
    unfold get_potential_matches
    cases e : get_user db uid with
    | none => rfl
    | some req =>
      have h0 : eligibleFor db uid req = [] := by
        unfold eligibleSet at hempty
        rw [e] at hempty
        exact hempty
      dsimp only
      rw [h0]
      simp
  · intro p hp
    obtain ⟨req, hreq, hu, helig, t1, t2, t3, t4, hd⟩ := mem_get_potential_matches hp
    exact ⟨(mem_eligibleSet_iff hreq).mpr ⟨hu, helig⟩, req, hreq, t1, t2, t3, t4, hd⟩

/-- Witness for the amended C5: on the empty state the eligible set is
empty and the selector returns nothing. -/
theorem c5_selector_sound_witness :
    eligibleSet DB.empty 1 = [] ∧ get_potential_matches dist0 DB.empty 1 0 = [] :=
  ⟨by decide, (c5_selector_sound DB.empty 1 dist0 0).1 (by decide)⟩

/-- Claim C7 is about the code's bug: botnew.py's `edit_age` updates the
age of an existing user through `upsert_user`, consults no age-change
guard, and appends no `age_changes` record — evaluated here at a
concrete failing input (user 1, age 30, edited to 45). -/
theorem c7_edit_age_skips_guard_and_ledger :
    (get_userN db7 1).map ProfileN.age = some (some 30) ∧
    (get_userN (edit_age db7 1 45) 1).map ProfileN.age = some (some 45) ∧
    (edit_age db7 1 45).age_changes = [] ∧
    db7.age_changes = [] := by decide

end LoveBot
